import Mathlib

/-!
Shallow embedding of the row-processing pipeline of the event ticketing
system: the main poll loop, sheet helpers and error log of main_app.py,
and the attendee store of mongo_helper.py. External effects (sheet writes,
store inserts, QR and ticket rendering, email delivery) are driven by an
explicit environment of outcomes, so that the control flow of the source is
reproduced exactly while effects become explicit state.
-/

set_option autoImplicit false

namespace Ticketing

/-- A stored attendee document: an association list from field name to value,
modelling the MongoDB document that main_app.py builds from a sheet row. -/
abbrev Doc := List (String × String)

/-- Default of config.COL_NAME. -/
def colName : String := "Name"

/-- Default of config.COL_EMAIL. -/
def colEmail : String := "Email"

/-- Default of config.COL_TICKET_STATUS. -/
def colTicketStatus : String := "Ticket Status"

/-- Default of config.COL_EMAIL_STATUS. -/
def colEmailStatus : String := "Email Status"

/-- The fixed literal column name "Attendee ID" used by main_app.py. -/
def colAttendeeId : String := "Attendee ID"

/-- Python str.strip(): the string with leading and trailing whitespace
removed, written on the character list so that it evaluates by reduction. -/
def strip (s : String) : String :=
  String.mk (((s.data.dropWhile Char.isWhitespace).reverse.dropWhile
    Char.isWhitespace).reverse)

/-- Python str.replace for a single-character pattern, as used for the
space-to-underscore renaming of file names. -/
def underscoreName (s : String) : String :=
  String.mk (s.data.map (fun ch => if ch = ' ' then '_' else ch))

/-- Setting a field of a document, as Python dict assignment and Mongo set do:
replace the binding of the key if present, append the binding if absent. -/
def setField : Doc → String → String → Doc
  | [], k, v => [(k, v)]
  | (k', v') :: rest, k, v =>
      if k' = k then (k, v) :: rest else (k', v') :: setField rest k v

/-- MongoDBClient.find_attendee_by_email_and_name: the first document whose
COL_EMAIL and COL_NAME fields both equal the query values. -/
def findAttendee (store : List Doc) (email name : String) : Option Doc :=
  store.find? (fun d => d.lookup colEmail == some email && d.lookup colName == some name)

/-- MongoDBClient.update_attendee_field: a point set on the first document
whose attendee_id field equals the given id. -/
def updateField : List Doc → String → String → String → List Doc
  | [], _, _, _ => []
  | d :: ds, aid, k, v =>
      if d.lookup "attendee_id" == some aid then setField d k v :: ds
      else d :: updateField ds aid k v

/-- get_value_safe: row[col] when the index is in range, else the empty
string. -/
def getValueSafe (row : List String) (colIdx : Nat) : String :=
  row.getD colIdx ""

/-- Write one cell of a single sheet row, padding with empty cells when the
row is shorter than the target column (the backing sheet has all cells). -/
def setCellRow : List String → Nat → String → List String
  | [], 0, v => [v]
  | [], c + 1, v => "" :: setCellRow [] c v
  | _ :: xs, 0, v => v :: xs
  | x :: xs, c + 1, v => x :: setCellRow xs c v

/-- Apply a successful single-cell write to the data rows, 0-based row
index. -/
def setSheetCell : List (List String) → Nat → Nat → String → List (List String)
  | [], _, _, _ => []
  | r :: rs, 0, c, v => setCellRow r c v :: rs
  | r :: rs, i + 1, c, v => r :: setSheetCell rs i c v

/-- Read one cell of the data rows. -/
def getCell (rows : List (List String)) (i c : Nat) : String :=
  getValueSafe (rows.getD i []) c

/-- Outcomes of the external collaborators during one poll cycle: whether a
given single-cell sheet write succeeds, whether the store insert succeeds,
whether QR generation, ticket-image creation and email delivery succeed, and
the fresh uuid minted when a row has no existing record. -/
structure Env where
  writeCell : Nat → Nat → String → Bool
  insertOk : Bool
  qrOk : String → Bool
  imageOk : String → Bool
  emailOk : String → Bool
  freshId : String

/-- The observable state of the pipeline: the attendee store, the backing
sheet data rows, the PROCESSED_ENTRIES markers, the local temp files
currently present, the emails actually delivered, and the ordered trace of
attempted cell writes. -/
structure PipelineState where
  store : List Doc
  rows : List (List String)
  processed : List String
  tempFiles : List String
  emailsSent : List String
  writes : List (Nat × Nat × String)
  deriving DecidableEq

/-- update_sheet_cell: record the attempted write and, on success, apply it
to the backing rows; the first component is the returned success flag. -/
def doWriteCell (env : Env) (st : PipelineState) (i c : Nat) (v : String) :
    Bool × PipelineState :=
  let ok := env.writeCell i c v
  (ok, { st with
          writes := st.writes ++ [(i, c, v)],
          rows := if ok then setSheetCell st.rows i c v else st.rows })

/-- The resolved COLUMN_INDICES of the five required columns. -/
structure Cols where
  nameIdx : Nat
  emailIdx : Nat
  tsIdx : Nat
  esIdx : Nat
  idIdx : Nat

/-- COLUMN_INDICES[c] = headers.index(c) for each required column. -/
def resolveCols (headers : List String) : Cols :=
  { nameIdx := headers.findIdx (· == colName),
    emailIdx := headers.findIdx (· == colEmail),
    tsIdx := headers.findIdx (· == colTicketStatus),
    esIdx := headers.findIdx (· == colEmailStatus),
    idIdx := headers.findIdx (· == colAttendeeId) }

/-- Local temp path of the QR image for a given name. -/
def qrPathOf (name : String) : String :=
  "temp/" ++ underscoreName name ++ "_QR.png"

/-- Local temp path of the ticket image for a given name. -/
def ticketPathOf (name : String) : String :=
  "temp/" ++ underscoreName name ++ "_Ticket.png"

/-- full_attendee_data: a snapshot of the fetched row keyed by the headers,
plus the attendee_id and the initial ticket and email status fields. -/
def buildDoc (headers row : List String) (aid : String) : Doc :=
  let base := headers.enum.map (fun p => (p.2, getValueSafe row p.1))
  setField (setField (setField base "attendee_id" aid) colTicketStatus "Issued")
    colEmailStatus "Pending"

/-- row_unique_id = name-email, built from the stripped name and email. -/
def rowKey (name email : String) : String :=
  name ++ "-" ++ email

/-- Steps 3 to 7 of the row processor, lines 445 to 478 of main_app.py: QR
and ticket rendering, the Generated and Sending transitions, the email
attempt and the final temp-file cleanup. Drive uploads have no effect on the
modelled state since their results are discarded by the code. -/
def renderAndSend (env : Env) (cols : Cols) (i : Nat) (name email aid : String)
    (st : PipelineState) : PipelineState :=
  if env.qrOk aid then
    let st1 := { st with tempFiles := qrPathOf name :: st.tempFiles }
    if env.imageOk name then
      let st2 := { st1 with tempFiles := ticketPathOf name :: st1.tempFiles }
      let st3 := (doWriteCell env st2 i cols.tsIdx "Generated").2
      let st4 := { st3 with store := updateField st3.store aid colTicketStatus "Generated" }
      let st5 := (doWriteCell env st4 i cols.esIdx "Sending...").2
      let st6 := { st5 with store := updateField st5.store aid colEmailStatus "Sending..." }
      let st7 :=
        if env.emailOk email then
          let sA := (doWriteCell env st6 i cols.tsIdx "Sent").2
          let sB := (doWriteCell env sA i cols.esIdx "Sent").2
          let sC := { sB with store := updateField sB.store aid colTicketStatus "Sent" }
          let sD := { sC with store := updateField sC.store aid colEmailStatus "Sent" }
          { sD with emailsSent := sD.emailsSent ++ [email] }
        else
          let sA := (doWriteCell env st6 i cols.esIdx "Failed (Email)").2
          { sA with store := updateField sA.store aid colEmailStatus "Failed (Email)" }
      { st7 with tempFiles := (st7.tempFiles.erase (qrPathOf name)).erase (ticketPathOf name) }
    else
      (doWriteCell env st1 i cols.tsIdx "Failed (Image)").2
  else
    (doWriteCell env st i cols.tsIdx "Failed (QR)").2

/-- One row through the body of the main loop, lines 399 to 478 of
main_app.py: the guards, identity resolution, then render and notify. The
row argument is the row as fetched at the start of the cycle; writes go to
the live sheet held in the state. -/
def processRow (env : Env) (headers : List String) (cols : Cols) (i : Nat)
    (row : List String) (st : PipelineState) : PipelineState :=
  let name := strip (getValueSafe row cols.nameIdx)
  let email := strip (getValueSafe row cols.emailIdx)
  let ticketStatus := strip (getValueSafe row cols.tsIdx)
  if name = "" ∨ email = "" then st
  else if ticketStatus = "Sent" ∨ rowKey name email ∈ st.processed then st
  else
    let st1 := { st with processed := rowKey name email :: st.processed }
    let st2 := (doWriteCell env st1 i cols.tsIdx "Generating...").2
    match findAttendee st2.store email name with
    | some d =>
        let aid := (d.lookup "attendee_id").getD ""
        let sheetId := strip (getValueSafe row cols.idIdx)
        let st3 := if sheetId = aid then st2 else (doWriteCell env st2 i cols.idIdx aid).2
        renderAndSend env cols i name email aid st3
    | none =>
        let aid := env.freshId
        let w := doWriteCell env st2 i cols.idIdx aid
        if w.1 then
          if env.insertOk then
            let st3 := { w.2 with store := w.2.store ++ [buildDoc headers row aid] }
            renderAndSend env cols i name email aid st3
          else
            (doWriteCell env w.2 i cols.tsIdx "Failed (DB)").2
        else
          (doWriteCell env w.2 i cols.tsIdx "Failed (Sheet)").2

/-- get_sheet_data: the empty result on an HTTP error (modelled as none) or
on an empty value range, otherwise the first fetched row as headers and the
rest as data rows. -/
def getSheetData : Option (List (List String)) → List String × List (List String)
  | none => ([], [])
  | some [] => ([], [])
  | some (h :: rows) => (h, rows)

/-- The required column names checked at the start of every cycle. -/
def requiredColumns : List String :=
  [colName, colEmail, colTicketStatus, colEmailStatus, colAttendeeId]

/-- One iteration of the main while-loop: fetch, the header and
required-column checks, then every fetched data row through the row
processor in sheet order. Sleep-and-retry and the exit on a missing required
column are both modelled as returning the state unchanged, meaning no
pipeline action happens this cycle. -/
def pollCycle (env : Env) (headers : List String) (readOk : Bool)
    (st : PipelineState) : PipelineState :=
  match getSheetData (if readOk then some (headers :: st.rows) else none) with
  | ([], _) => st
  | (hs, data) =>
      if requiredColumns.all (fun c => hs.contains c) then
        (data.enum).foldl (fun s p => processRow env hs (resolveCols hs) p.1 p.2 s) st
      else st

/-- The canonical header row holding exactly the five required columns. -/
def headers0 : List String :=
  [colName, colEmail, colTicketStatus, colEmailStatus, colAttendeeId]

/-- One step of a deployment history: a poll cycle with given external
outcomes, or a process restart in which PROCESSED_ENTRIES is rebuilt empty
while the store and the sheet persist. -/
inductive RunStep where
  | restart : RunStep
  | cycle : Env → RunStep

/-- Run a sequence of cycles and restarts against the canonical headers. -/
def runSteps (steps : List RunStep) (st : PipelineState) : PipelineState :=
  steps.foldl
    (fun s step =>
      match step with
      | RunStep.restart => { s with processed := [] }
      | RunStep.cycle env => pollCycle env headers0 true s)
    st

/-- MAX_ERROR_LOG_SIZE from main_app.py. -/
def MAX_ERROR_LOG_SIZE : Nat := 100

/-- log_error: evict the oldest entry when the log is already full, then
append the timestamped message. -/
def logError (log : List String) (ts msg : String) : List String :=
  let log' := if MAX_ERROR_LOG_SIZE ≤ log.length then log.drop 1 else log
  log' ++ ["[" ++ ts ++ "] " ++ msg]

/-- Whether a stored document carries the given (email, name) identity, the
match used by the store lookup. -/
def isPairDoc (d : Doc) (email name : String) : Bool :=
  d.lookup colEmail == some email && d.lookup colName == some name

/-- The number of records the store holds for an (email, name) pair. -/
def countPair (store : List Doc) (email name : String) : Nat :=
  (store.filter (fun d => isPairDoc d email name)).length

/-- The range string built by update_sheet_cell from a 0-based data-row index
and a 0-based column index. -/
def cellRange (sheetName : String) (rowIndex colIndex : Nat) : String :=
  sheetName ++ "!" ++ String.singleton (Char.ofNat ('A'.toNat + colIndex)) ++
    toString (rowIndex + 2)

/-- Following the spec's words: the A1-style reference of the cell at the
1-based sheet row rowNum and the column rendered as the colIdx-th letter
counted from A, prefixed by the sheet name. Compared against cellRange. -/
def specA1Ref (sheetName : String) (rowNum colIdx : Nat) : String :=
  sheetName ++ "!" ++ String.singleton (Char.ofNat ('A'.toNat + colIdx)) ++
    toString rowNum

/-! ### Basic lemmas about the store and sheet operations -/

@[simp]
lemma store_doWriteCell (env : Env) (st : PipelineState) (i c : Nat) (v : String) :
    ((doWriteCell env st i c v).2).store = st.store := rfl

@[simp]
lemma processed_doWriteCell (env : Env) (st : PipelineState) (i c : Nat) (v : String) :
    ((doWriteCell env st i c v).2).processed = st.processed := rfl

@[simp]
lemma tempFiles_doWriteCell (env : Env) (st : PipelineState) (i c : Nat) (v : String) :
    ((doWriteCell env st i c v).2).tempFiles = st.tempFiles := rfl

@[simp]
lemma emailsSent_doWriteCell (env : Env) (st : PipelineState) (i c : Nat) (v : String) :
    ((doWriteCell env st i c v).2).emailsSent = st.emailsSent := rfl

@[simp]
lemma writes_doWriteCell (env : Env) (st : PipelineState) (i c : Nat) (v : String) :
    ((doWriteCell env st i c v).2).writes = st.writes ++ [(i, c, v)] := rfl

lemma lookup_setField_ne (d : Doc) (k v : String) {k' : String} (h : k' ≠ k) :
    (setField d k v).lookup k' = d.lookup k' := by
  have hkk : (k' == k) = false := beq_eq_false_iff_ne.mpr h
  induction d with
  | nil =>
      simp [setField, List.lookup, hkk]
  | cons p rest ih =>
      obtain ⟨a, b⟩ := p
      by_cases hak : a = k
      · subst hak
        simp [setField, List.lookup, hkk]
      · simp [setField, hak, List.lookup, ih]

lemma isPairDoc_setField (d : Doc) (k v e n : String)
    (h1 : k ≠ colEmail) (h2 : k ≠ colName) :
    isPairDoc (setField d k v) e n = isPairDoc d e n := by
  simp [isPairDoc, lookup_setField_ne d k v (Ne.symm h1), lookup_setField_ne d k v (Ne.symm h2)]

lemma countPair_updateField (s : List Doc) (aid k v e n : String)
    (h1 : k ≠ colEmail) (h2 : k ≠ colName) :
    countPair (updateField s aid k v) e n = countPair s e n := by
  induction s with
  | nil => rfl
  | cons d ds ih =>
      by_cases hd : d.lookup "attendee_id" == some aid
      · simp only [updateField, hd, if_pos, countPair, List.filter,
          isPairDoc_setField d k v e n h1 h2]
        cases hpd : isPairDoc d e n <;> simp [hpd]
      · simp only [updateField, hd, if_neg]
        simp [countPair, List.filter] at ih ⊢
        cases hpd : isPairDoc d e n <;> simp [hpd, ih]

@[simp]
lemma countPair_updateField_ts (s : List Doc) (aid v e n : String) :
    countPair (updateField s aid colTicketStatus v) e n = countPair s e n :=
  countPair_updateField s aid colTicketStatus v e n (by decide) (by decide)

@[simp]
lemma countPair_updateField_es (s : List Doc) (aid v e n : String) :
    countPair (updateField s aid colEmailStatus v) e n = countPair s e n :=
  countPair_updateField s aid colEmailStatus v e n (by decide) (by decide)

@[simp]
lemma length_updateField (s : List Doc) (aid k v : String) :
    (updateField s aid k v).length = s.length := by
  induction s with
  | nil => rfl
  | cons d ds ih =>
      by_cases hd : d.lookup "attendee_id" == some aid <;>
        simp [updateField, hd, ih]

lemma countPair_append_single (s : List Doc) (d : Doc) (e n : String) :
    countPair (s ++ [d]) e n =
      countPair s e n + (if isPairDoc d e n then 1 else 0) := by
  cases h : isPairDoc d e n <;>
    simp [countPair, List.filter_append, List.filter, h]

lemma findAttendee_eq_none_iff (s : List Doc) (e n : String) :
    findAttendee s e n = none ↔ countPair s e n = 0 := by
  simp [findAttendee, countPair, List.find?_eq_none, List.length_eq_zero,
    List.filter_eq_nil_iff, isPairDoc]

lemma rows_doWriteCell_true (env : Env) (st : PipelineState) (i c : Nat) (v : String)
    (h : env.writeCell i c v = true) :
    ((doWriteCell env st i c v).2).rows = setSheetCell st.rows i c v := by
  simp [doWriteCell, h]

lemma rows_doWriteCell_false (env : Env) (st : PipelineState) (i c : Nat) (v : String)
    (h : env.writeCell i c v = false) :
    ((doWriteCell env st i c v).2).rows = st.rows := by
  simp [doWriteCell, h]

@[simp]
lemma getValueSafe_nil (c : Nat) : getValueSafe [] c = "" := by
  cases c <;> rfl

@[simp]
lemma getValueSafe_cons_zero (x : String) (xs : List String) :
    getValueSafe (x :: xs) 0 = x := rfl

@[simp]
lemma getValueSafe_cons_succ (x : String) (xs : List String) (k : Nat) :
    getValueSafe (x :: xs) (k + 1) = getValueSafe xs k := rfl

lemma getValueSafe_setCellRow (r : List String) (c' : Nat) (v : String) (c : Nat) :
    getValueSafe (setCellRow r c' v) c = if c = c' then v else getValueSafe r c := by
  induction c' generalizing r c with
  | zero => cases r <;> cases c <;> simp [setCellRow]
  | succ m ih => cases r <;> cases c <;> simp [setCellRow, ih]

lemma getValueSafe_setCellRow_self (r : List String) (c : Nat) (v : String) :
    getValueSafe (setCellRow r c v) c = v := by
  simp [getValueSafe_setCellRow]

lemma getValueSafe_setCellRow_ne (r : List String) (c' : Nat) (v : String) {c : Nat}
    (h : c ≠ c') :
    getValueSafe (setCellRow r c' v) c = getValueSafe r c := by
  simp [getValueSafe_setCellRow, h]

lemma getCell_setSheetCell_ne_col (rows : List (List String)) (i' c' : Nat) (v : String)
    {i c : Nat} (h : c ≠ c') :
    getCell (setSheetCell rows i' c' v) i c = getCell rows i c := by
  induction rows generalizing i' i with
  | nil => simp [setSheetCell]
  | cons r rs ih =>
      cases i' with
      | zero =>
          cases i with
          | zero => simp [setSheetCell, getCell, getValueSafe_setCellRow_ne r c' v h]
          | succ k => simp [setSheetCell, getCell]
      | succ m =>
          cases i with
          | zero => simp [setSheetCell, getCell]
          | succ k => simpa [setSheetCell, getCell] using ih m (i := k)

lemma getCell_setSheetCell_self (rows : List (List String)) (i c : Nat) (v : String)
    (h : i < rows.length) :
    getCell (setSheetCell rows i c v) i c = v := by
  induction rows generalizing i with
  | nil => simp at h
  | cons r rs ih =>
      cases i with
      | zero => simp [setSheetCell, getCell, getValueSafe_setCellRow_self]
      | succ k =>
          simp [setSheetCell, getCell] at *
          exact ih k (by omega)

lemma getCell_doWriteCell_ne (env : Env) (st : PipelineState) (i' c' : Nat) (v : String)
    {i c : Nat} (h : c ≠ c') :
    getCell ((doWriteCell env st i' c' v).2).rows i c = getCell st.rows i c := by
  by_cases hw : env.writeCell i' c' v = true
  · rw [rows_doWriteCell_true env st i' c' v hw]
    exact getCell_setSheetCell_ne_col st.rows i' c' v h
  · rw [rows_doWriteCell_false env st i' c' v (by simpa using hw)]

/-! ### Lemmas about the render-and-notify tail of the row processor -/

lemma qrPathOf_ne_ticketPathOf (nm : String) : qrPathOf nm ≠ ticketPathOf nm := by
  intro h
  have hlen := congrArg String.length h
  rw [qrPathOf, ticketPathOf, String.length_append, String.length_append,
    String.length_append, String.length_append,
    show ("_QR.png" : String).length = 7 from rfl,
    show ("_Ticket.png" : String).length = 11 from rfl] at hlen
  omega

lemma countPair_renderAndSend (env : Env) (cols : Cols) (i : Nat) (nm em aid : String)
    (st : PipelineState) (e n : String) :
    countPair (renderAndSend env cols i nm em aid st).store e n = countPair st.store e n := by
  unfold renderAndSend
  by_cases hq : env.qrOk aid
  · by_cases hi : env.imageOk nm
    · by_cases hm : env.emailOk em <;> simp [hq, hi, hm]
    · simp [hq, hi]
  · simp [hq]

lemma storeLength_renderAndSend (env : Env) (cols : Cols) (i : Nat) (nm em aid : String)
    (st : PipelineState) :
    (renderAndSend env cols i nm em aid st).store.length = st.store.length := by
  unfold renderAndSend
  by_cases hq : env.qrOk aid
  · by_cases hi : env.imageOk nm
    · by_cases hm : env.emailOk em <;> simp [hq, hi, hm]
    · simp [hq, hi]
  · simp [hq]

lemma emailsSent_renderAndSend_ok (env : Env) (cols : Cols) (i : Nat) (nm em aid : String)
    (st : PipelineState) (hq : env.qrOk aid = true) (hi : env.imageOk nm = true)
    (hm : env.emailOk em = true) :
    (renderAndSend env cols i nm em aid st).emailsSent = st.emailsSent ++ [em] := by
  unfold renderAndSend
  simp [hq, hi, hm]

lemma tempFiles_renderAndSend_qrFail (env : Env) (cols : Cols) (i : Nat)
    (nm em aid : String) (st : PipelineState) (hq : env.qrOk aid = false) :
    (renderAndSend env cols i nm em aid st).tempFiles = st.tempFiles := by
  unfold renderAndSend
  simp [hq]

lemma tempFiles_renderAndSend_imageFail (env : Env) (cols : Cols) (i : Nat)
    (nm em aid : String) (st : PipelineState) (hq : env.qrOk aid = true)
    (hi : env.imageOk nm = false) :
    (renderAndSend env cols i nm em aid st).tempFiles = qrPathOf nm :: st.tempFiles := by
  unfold renderAndSend
  simp [hq, hi]

lemma tempFiles_renderAndSend_rendered (env : Env) (cols : Cols) (i : Nat)
    (nm em aid : String) (st : PipelineState) (hq : env.qrOk aid = true)
    (hi : env.imageOk nm = true) :
    (renderAndSend env cols i nm em aid st).tempFiles = st.tempFiles := by
  have hne : ¬(ticketPathOf nm == qrPathOf nm) :=
    not_beq_of_ne (Ne.symm (qrPathOf_ne_ticketPathOf nm))
  unfold renderAndSend
  by_cases hm : env.emailOk em <;>
    simp [hq, hi, hm, List.erase_cons_tail, hne, List.erase_cons_head]

lemma getCell_renderAndSend_ne (env : Env) (cols : Cols) (i : Nat) (nm em aid : String)
    (st : PipelineState) {i' c : Nat} (hts : c ≠ cols.tsIdx) (hes : c ≠ cols.esIdx) :
    getCell (renderAndSend env cols i nm em aid st).rows i' c = getCell st.rows i' c := by
  unfold renderAndSend
  by_cases hq : env.qrOk aid
  · by_cases hi : env.imageOk nm
    · by_cases hm : env.emailOk em <;>
        simp [hq, hi, hm, getCell_doWriteCell_ne, hts, hes]
    · simp [hq, hi, getCell_doWriteCell_ne, hts, hes]
  · simp [hq, getCell_doWriteCell_ne, hts, hes]

@[simp]
lemma length_setSheetCell (rows : List (List String)) (i c : Nat) (v : String) :
    (setSheetCell rows i c v).length = rows.length := by
  induction rows generalizing i with
  | nil => rfl
  | cons r rs ih => cases i <;> simp [setSheetCell, ih]

@[simp]
lemma length_rows_doWriteCell (env : Env) (st : PipelineState) (i c : Nat) (v : String) :
    ((doWriteCell env st i c v).2).rows.length = st.rows.length := by
  by_cases hw : env.writeCell i c v = true
  · simp [rows_doWriteCell_true env st i c v hw]
  · simp [rows_doWriteCell_false env st i c v (by simpa using hw)]

lemma logError_length_le (l : List String) (ts m : String)
    (h : l.length ≤ MAX_ERROR_LOG_SIZE) :
    (logError l ts m).length ≤ MAX_ERROR_LOG_SIZE := by
  unfold logError MAX_ERROR_LOG_SIZE at *
  by_cases hc : 100 ≤ l.length <;> simp [hc] <;> omega

/-! ### Claim theorems -/

/-- C5: a row whose trimmed ticket-status cell is Sent is skipped entirely by
the processor: the pipeline state is returned unchanged, so no store record
is inserted or updated, no email is sent, and no cell write is attempted,
whatever the other fields hold. -/
theorem C5_terminal_skip (env : Env) (headers : List String) (cols : Cols) (i : Nat)
    (row : List String) (st : PipelineState)
    (h : strip (getValueSafe row cols.tsIdx) = "Sent") :
    processRow env headers cols i row st = st := by
  unfold processRow
  by_cases hne : strip (getValueSafe row cols.nameIdx) = "" ∨
      strip (getValueSafe row cols.emailIdx) = ""
  · simp [hne]
  · simp [hne, h]

/-- C5 witness: a concrete Sent row is left untouched. -/
theorem C5_witness :
    processRow ⟨fun _ _ _ => true, true, fun _ => true, fun _ => true, fun _ => true, "u"⟩
      headers0 (resolveCols headers0) 0 ["n", "e@x", "Sent", "Failed (Email)", "Y"]
      ⟨[], [["n", "e@x", "Sent", "Failed (Email)", "Y"]], [], [], [], []⟩
    = ⟨[], [["n", "e@x", "Sent", "Failed (Email)", "Y"]], [], [], [], []⟩ :=
  C5_terminal_skip _ _ _ _ _ _ (by decide)

/-- C7: a failed spreadsheet read produces the empty headers-and-rows result
rather than an exception, and a cycle whose read fails takes no pipeline
action at all, so the loop just sleeps and retries next cycle. -/
theorem C7_read_failure_returns_empty (env : Env) (headers : List String)
    (st : PipelineState) :
    getSheetData none = ([], []) ∧ pollCycle env headers false st = st :=
  ⟨rfl, rfl⟩

/-- C8: the range string built by update_sheet_cell for 0-based data-row
index r and 0-based column index c addresses the 1-based sheet row r + 2 and
the column written as the c-th letter after A, which is an upper-case letter
for every column the code can address this way. -/
theorem C8_cell_addressing (sheetName : String) (r c : Nat) (h : c < 26) :
    cellRange sheetName r c = specA1Ref sheetName (r + 2) c
    ∧ 'A' ≤ Char.ofNat ('A'.toNat + c) ∧ Char.ofNat ('A'.toNat + c) ≤ 'Z' := by
  refine ⟨rfl, ?_, ?_⟩ <;> (interval_cases c <;> decide)

/-- C8 witness: column 2 of data row 0 is addressed as cell C2. -/
theorem C8_witness :
    cellRange "Sheet1" 0 2 = specA1Ref "Sheet1" 2 2
    ∧ 'A' ≤ Char.ofNat ('A'.toNat + 2) ∧ Char.ofNat ('A'.toNat + 2) ≤ 'Z' :=
  C8_cell_addressing "Sheet1" 0 2 (by decide)

/-- C9: starting from the empty log, any sequence of error-log appends
leaves at most MAX_ERROR_LOG_SIZE entries, and an append to a full log
evicts exactly the oldest entry before appending the new one, keeping the
FIFO order of the retained entries. -/
theorem C9_bounded_error_log :
    (∀ msgs : List (String × String),
        (msgs.foldl (fun l p => logError l p.1 p.2) []).length ≤ MAX_ERROR_LOG_SIZE)
    ∧ (∀ (log : List String) (ts msg : String), log.length = MAX_ERROR_LOG_SIZE →
        logError log ts msg = log.tail ++ ["[" ++ ts ++ "] " ++ msg]) := by
  constructor
  · have hstep : ∀ (msgs : List (String × String)) (l : List String),
        l.length ≤ MAX_ERROR_LOG_SIZE →
        (msgs.foldl (fun acc p => logError acc p.1 p.2) l).length ≤ MAX_ERROR_LOG_SIZE := by
      intro msgs
      induction msgs with
      | nil => intro l h; simpa using h
      | cons p ps ih => intro l h; exact ih _ (logError_length_le l p.1 p.2 h)
    intro msgs
    exact hstep msgs [] (by simp [MAX_ERROR_LOG_SIZE])
  · intro log ts msg h
    unfold logError
    rw [if_pos (by omega), List.drop_one]

/-- C9 witness: a short append sequence stays bounded, and an append to a
full log of one hundred entries drops the oldest entry first. -/
theorem C9_witness :
    ((([("t1", "m1"), ("t2", "m2")] : List (String × String)).foldl
        (fun l p => logError l p.1 p.2) []).length ≤ MAX_ERROR_LOG_SIZE)
    ∧ logError (List.replicate MAX_ERROR_LOG_SIZE "old") "t" "m"
        = (List.replicate MAX_ERROR_LOG_SIZE "old").tail ++ ["[" ++ "t" ++ "] " ++ "m"] :=
  ⟨C9_bounded_error_log.1 _, C9_bounded_error_log.2 _ _ _ (by simp)⟩

/-- C2: when the store has no record for the row's identity and the sheet
writeback of the freshly minted attendee id fails, the processor inserts
nothing into the store, attempts exactly the Generating, id and
Failed (Sheet) writes for this row, and aborts before any render or email
work; whenever the Failed (Sheet) status write itself succeeds, the row's
ticket-status cell indeed holds Failed (Sheet) afterwards. -/
theorem C2_no_insert_without_writeback (env : Env) (headers : List String) (cols : Cols)
    (i : Nat) (row : List String) (st : PipelineState)
    (hn : strip (getValueSafe row cols.nameIdx) ≠ "")
    (he : strip (getValueSafe row cols.emailIdx) ≠ "")
    (hts : strip (getValueSafe row cols.tsIdx) ≠ "Sent")
    (hpk : rowKey (strip (getValueSafe row cols.nameIdx))
        (strip (getValueSafe row cols.emailIdx)) ∉ st.processed)
    (hfind : findAttendee st.store (strip (getValueSafe row cols.emailIdx))
        (strip (getValueSafe row cols.nameIdx)) = none)
    (hw : env.writeCell i cols.idIdx env.freshId = false) :
    (processRow env headers cols i row st).store = st.store
    ∧ (processRow env headers cols i row st).writes =
        st.writes ++ [(i, cols.tsIdx, "Generating..."), (i, cols.idIdx, env.freshId),
          (i, cols.tsIdx, "Failed (Sheet)")]
    ∧ (processRow env headers cols i row st).emailsSent = st.emailsSent
    ∧ (processRow env headers cols i row st).tempFiles = st.tempFiles
    ∧ (i < st.rows.length → env.writeCell i cols.tsIdx "Failed (Sheet)" = true →
        getCell (processRow env headers cols i row st).rows i cols.tsIdx = "Failed (Sheet)") := by
  have hshape : processRow env headers cols i row st =
      (doWriteCell env
        (doWriteCell env
          (doWriteCell env
            { st with processed :=
                (rowKey (strip (getValueSafe row cols.nameIdx))
                  (strip (getValueSafe row cols.emailIdx)) :: st.processed) }
            i cols.tsIdx "Generating...").2
          i cols.idIdx env.freshId).2
        i cols.tsIdx "Failed (Sheet)").2 := by
    unfold processRow
    simp [hn, he, hts, hpk, hfind, hw, doWriteCell]
  rw [hshape]
  refine ⟨rfl, by simp, rfl, rfl, ?_⟩
  intro hlen hw2
  rw [rows_doWriteCell_true _ _ _ _ _ hw2]
  apply getCell_setSheetCell_self
  simpa using hlen

/-- C2 witness: a concrete fresh row whose id writeback is rejected ends with
no store record, the abort write trace, and a Failed (Sheet) status cell. -/
theorem C2_witness :
    ((processRow ⟨fun _ c _ => decide (c ≠ 4), true, fun _ => true, fun _ => true,
        fun _ => true, "id-9"⟩
      headers0 (resolveCols headers0) 0 ["n", "e@x", "", "", ""]
      ⟨[], [["n", "e@x", "", "", ""]], [], [], [], []⟩).store = []
    ∧ (processRow ⟨fun _ c _ => decide (c ≠ 4), true, fun _ => true, fun _ => true,
        fun _ => true, "id-9"⟩
      headers0 (resolveCols headers0) 0 ["n", "e@x", "", "", ""]
      ⟨[], [["n", "e@x", "", "", ""]], [], [], [], []⟩).writes =
        [] ++ [(0, (resolveCols headers0).tsIdx, "Generating..."),
          (0, (resolveCols headers0).idIdx, "id-9"),
          (0, (resolveCols headers0).tsIdx, "Failed (Sheet)")]
    ∧ (processRow ⟨fun _ c _ => decide (c ≠ 4), true, fun _ => true, fun _ => true,
        fun _ => true, "id-9"⟩
      headers0 (resolveCols headers0) 0 ["n", "e@x", "", "", ""]
      ⟨[], [["n", "e@x", "", "", ""]], [], [], [], []⟩).emailsSent = []
    ∧ (processRow ⟨fun _ c _ => decide (c ≠ 4), true, fun _ => true, fun _ => true,
        fun _ => true, "id-9"⟩
      headers0 (resolveCols headers0) 0 ["n", "e@x", "", "", ""]
      ⟨[], [["n", "e@x", "", "", ""]], [], [], [], []⟩).tempFiles = []
    ∧ (0 < ([["n", "e@x", "", "", ""]] : List (List String)).length →
        (fun (_ : Nat) (c : Nat) (_ : String) => decide (c ≠ 4)) 0 (resolveCols headers0).tsIdx
          "Failed (Sheet)" = true →
        getCell (processRow ⟨fun _ c _ => decide (c ≠ 4), true, fun _ => true, fun _ => true,
            fun _ => true, "id-9"⟩
          headers0 (resolveCols headers0) 0 ["n", "e@x", "", "", ""]
          ⟨[], [["n", "e@x", "", "", ""]], [], [], [], []⟩).rows 0
          (resolveCols headers0).tsIdx = "Failed (Sheet)")) :=
  C2_no_insert_without_writeback _ _ _ _ _ _ (by decide) (by decide) (by decide)
    (by decide) (by decide) (by decide)

lemma sep_split_unique {c : Char} :
    ∀ (l1 l2 r1 r2 : List Char), c ∉ l1 → c ∉ l2 →
      l1 ++ c :: r1 = l2 ++ c :: r2 → l1 = l2 ∧ r1 = r2 := by
  intro l1
  induction l1 with
  | nil =>
      intro l2 r1 r2 _ h2 he
      cases l2 with
      | nil => simpa using he
      | cons x xs =>
          simp only [List.nil_append, List.cons_append, List.cons.injEq] at he
          exact absurd (show c ∈ x :: xs from by rw [he.1]; exact List.mem_cons_self x xs) h2
  | cons x xs ih =>
      intro l2 r1 r2 h1 h2 he
      cases l2 with
      | nil =>
          simp only [List.nil_append, List.cons_append, List.cons.injEq] at he
          exact absurd (show c ∈ x :: xs from by rw [← he.1]; exact List.mem_cons_self x xs) h1
      | cons y ys =>
          simp only [List.cons_append, List.cons.injEq] at he
          obtain ⟨rfl, htl⟩ := he
          have := ih ys r1 r2 (fun hc => h1 (List.mem_cons_of_mem _ hc))
            (fun hc => h2 (List.mem_cons_of_mem _ hc)) htl
          exact ⟨by rw [this.1], this.2⟩

/-- C10 counterexample: the marker key is not injective: the distinct pairs
(a-b, c) and (a, b-c) share the key a-b-c, and with the first pair already
marked as dispatched, a row holding the second pair is skipped outright by
the processor in the same run. -/
theorem C10_counterexample :
    rowKey "a-b" "c" = rowKey "a" "b-c"
    ∧ (("a-b", "c") : String × String) ≠ ("a", "b-c")
    ∧ processRow ⟨fun _ _ _ => true, true, fun _ => true, fun _ => true, fun _ => true, "u"⟩
        headers0 (resolveCols headers0) 0 ["a", "b-c", "", "", ""]
        ⟨[], [["a", "b-c", "", "", ""]], [rowKey "a-b" "c"], [], [], []⟩
      = ⟨[], [["a", "b-c", "", "", ""]], [rowKey "a-b" "c"], [], [], []⟩ :=
  ⟨rfl, by decide, by decide⟩

/-- C10 amended: the marker key map is injective on pairs whose names
contain no hyphen: two such pairs with equal keys are the same pair. In
general distinct pairs can collide, as the counterexample shows. -/
theorem C10_key_injective_on_hyphen_free_names (n1 e1 n2 e2 : String)
    (h1 : '-' ∉ n1.data) (h2 : '-' ∉ n2.data)
    (heq : rowKey n1 e1 = rowKey n2 e2) : n1 = n2 ∧ e1 = e2 := by
  have hd : n1.data ++ '-' :: e1.data = n2.data ++ '-' :: e2.data := by
    have := congrArg String.data heq
    simpa [rowKey, String.data_append, show ("-" : String).data = ['-'] from rfl] using this
  obtain ⟨ha, hb⟩ := sep_split_unique n1.data n2.data e1.data e2.data h1 h2 hd
  exact ⟨String.ext ha, String.ext hb⟩

/-- C10 witness: hyphen-free names give distinct keys only for equal
pairs. -/
theorem C10_witness : ("ada" : String) = "ada" ∧ ("a@x" : String) = "a@x" :=
  C10_key_injective_on_hyphen_free_names "ada" "a@x" "ada" "a@x"
    (by decide) (by decide) rfl

/-- C4 counterexample: when ticket-image creation fails after a successful
QR generation, the row aborts without removing the QR temp file, so the
generated artifacts are not cleaned up for that outcome. -/
theorem C4_counterexample :
    (processRow ⟨fun _ _ _ => true, true, fun _ => true, fun _ => false, fun _ => true, "u"⟩
        headers0 (resolveCols headers0) 0 ["n", "e@x", "", "", ""]
        ⟨[[("Name", "n"), ("Email", "e@x"), ("attendee_id", "X")]],
          [["n", "e@x", "", "", ""]], [], [], [], []⟩).tempFiles = [qrPathOf "n"]
    ∧ qrPathOf "n" = "temp/n_QR.png" :=
  ⟨by decide, by decide⟩

/-- C4 amended: the temp artifacts are removed exactly when the row reaches
the notify step: after the email attempt, whatever its outcome, both files
are gone; on QR failure no file was created; but on ticket-image failure the
already-generated QR file is left behind. -/
theorem C4_cleanup_amended (env : Env) (cols : Cols) (i : Nat) (nm em aid : String)
    (st : PipelineState) :
    (env.qrOk aid = false →
        (renderAndSend env cols i nm em aid st).tempFiles = st.tempFiles)
    ∧ (env.qrOk aid = true → env.imageOk nm = false →
        (renderAndSend env cols i nm em aid st).tempFiles = qrPathOf nm :: st.tempFiles)
    ∧ (env.qrOk aid = true → env.imageOk nm = true →
        (renderAndSend env cols i nm em aid st).tempFiles = st.tempFiles) :=
  ⟨fun hq => tempFiles_renderAndSend_qrFail env cols i nm em aid st hq,
   fun hq hi => tempFiles_renderAndSend_imageFail env cols i nm em aid st hq hi,
   fun hq hi => tempFiles_renderAndSend_rendered env cols i nm em aid st hq hi⟩

/-- C4 witness: the three cleanup outcomes at concrete inputs. -/
theorem C4_witness :
    ((renderAndSend ⟨fun _ _ _ => true, true, fun _ => false, fun _ => true, fun _ => true, "u"⟩
        (resolveCols headers0) 0 "n" "e@x" "X" ⟨[], [], [], [], [], []⟩).tempFiles = [])
    ∧ ((renderAndSend ⟨fun _ _ _ => true, true, fun _ => true, fun _ => false, fun _ => true, "u"⟩
        (resolveCols headers0) 0 "n" "e@x" "X" ⟨[], [], [], [], [], []⟩).tempFiles
          = qrPathOf "n" :: [])
    ∧ ((renderAndSend ⟨fun _ _ _ => true, true, fun _ => true, fun _ => true, fun _ => true, "u"⟩
        (resolveCols headers0) 0 "n" "e@x" "X" ⟨[], [], [], [], [], []⟩).tempFiles = []) :=
  ⟨(C4_cleanup_amended _ _ _ _ _ _ _).1 rfl,
   (C4_cleanup_amended _ _ _ _ _ _ _).2.1 rfl rfl,
   (C4_cleanup_amended _ _ _ _ _ _ _).2.2 rfl rfl⟩

/-- C6 counterexample: the store holds the record with attendee id X for the
row's identity, the row's Attendee ID cell holds Y, and every sheet write is
rejected; after processing, the cell still holds Y, not the authoritative
X. -/
theorem C6_counterexample :
    getCell ((processRow
        ⟨fun _ _ _ => false, true, fun _ => false, fun _ => true, fun _ => true, "u"⟩
        headers0 (resolveCols headers0) 0 ["n", "e@x", "", "", "Y"]
        ⟨[[("Name", "n"), ("Email", "e@x"), ("attendee_id", "X")]],
          [["n", "e@x", "", "", "Y"]], [], [], [], []⟩).rows) 0 4 = "Y"
    ∧ ("Y" : String) ≠ "X" :=
  ⟨by decide, by decide⟩

/-- C6 amended: for an actionable row whose identity is already in the store
with attendee id X, if the sheet accepts the id write, then after the row is
processed the Attendee ID cell holds X up to surrounding whitespace, and the
store gained no new record. -/
theorem C6_row_id_convergence_amended (env : Env) (headers : List String) (cols : Cols)
    (i : Nat) (row : List String) (st : PipelineState) (d : Doc) (X : String)
    (hn : strip (getValueSafe row cols.nameIdx) ≠ "")
    (he : strip (getValueSafe row cols.emailIdx) ≠ "")
    (hts : strip (getValueSafe row cols.tsIdx) ≠ "Sent")
    (hpk : rowKey (strip (getValueSafe row cols.nameIdx))
        (strip (getValueSafe row cols.emailIdx)) ∉ st.processed)
    (hfind : findAttendee st.store (strip (getValueSafe row cols.emailIdx))
        (strip (getValueSafe row cols.nameIdx)) = some d)
    (hX : d.lookup "attendee_id" = some X)
    (hXs : strip X = X)
    (hrow : st.rows.get? i = some row)
    (hw : env.writeCell i cols.idIdx X = true)
    (hid_ts : cols.idIdx ≠ cols.tsIdx)
    (hid_es : cols.idIdx ≠ cols.esIdx) :
    strip (getCell (processRow env headers cols i row st).rows i cols.idIdx) = X
    ∧ (processRow env headers cols i row st).store.length = st.store.length := by
  have hlen : i < st.rows.length := (List.get?_eq_some.mp hrow).1
  have hshape : processRow env headers cols i row st =
      renderAndSend env cols i (strip (getValueSafe row cols.nameIdx))
        (strip (getValueSafe row cols.emailIdx)) X
        (if strip (getValueSafe row cols.idIdx) = X
         then (doWriteCell env
            { st with processed :=
                (rowKey (strip (getValueSafe row cols.nameIdx))
                  (strip (getValueSafe row cols.emailIdx)) :: st.processed) }
            i cols.tsIdx "Generating...").2
         else (doWriteCell env
            (doWriteCell env
              { st with processed :=
                  (rowKey (strip (getValueSafe row cols.nameIdx))
                    (strip (getValueSafe row cols.emailIdx)) :: st.processed) }
              i cols.tsIdx "Generating...").2
            i cols.idIdx X).2) := by
    unfold processRow
    simp [hn, he, hts, hpk, hfind, hX]
  rw [hshape]
  constructor
  · rw [getCell_renderAndSend_ne _ _ _ _ _ _ _ hid_ts hid_es]
    by_cases hsid : strip (getValueSafe row cols.idIdx) = X
    · rw [if_pos hsid, getCell_doWriteCell_ne _ _ _ _ _ hid_ts]
      have hgd : getCell st.rows i cols.idIdx = getValueSafe row cols.idIdx := by
        unfold getCell
        rw [List.getD_eq_getElem?_getD, ← List.get?_eq_getElem?, hrow]
        rfl
      rw [hgd]
      exact hsid
    · rw [if_neg hsid, rows_doWriteCell_true _ _ _ _ _ hw,
        getCell_setSheetCell_self _ _ _ _ (by simpa using hlen), hXs]
  · rw [storeLength_renderAndSend]
    by_cases hsid : strip (getValueSafe row cols.idIdx) = X <;> simp [hsid]

/-- C6 witness: a concrete stale row converges to the stored id X once the
write succeeds, with no new store record. -/
theorem C6_witness :
    strip (getCell ((processRow
        ⟨fun _ _ _ => true, true, fun _ => true, fun _ => true, fun _ => true, "u"⟩
        headers0 (resolveCols headers0) 0 ["n", "e@x", "", "", "Y"]
        ⟨[[("Name", "n"), ("Email", "e@x"), ("attendee_id", "X")]],
          [["n", "e@x", "", "", "Y"]], [], [], [], []⟩).rows) 0
        (resolveCols headers0).idIdx) = "X"
    ∧ ((processRow
        ⟨fun _ _ _ => true, true, fun _ => true, fun _ => true, fun _ => true, "u"⟩
        headers0 (resolveCols headers0) 0 ["n", "e@x", "", "", "Y"]
        ⟨[[("Name", "n"), ("Email", "e@x"), ("attendee_id", "X")]],
          [["n", "e@x", "", "", "Y"]], [], [], [], []⟩).store.length
      = ([[("Name", "n"), ("Email", "e@x"), ("attendee_id", "X")]] : List Doc).length) :=
  C6_row_id_convergence_amended _ _ _ _ _ _
    [("Name", "n"), ("Email", "e@x"), ("attendee_id", "X")] "X"
    (by decide) (by decide) (by decide)
    (by decide) (by decide) (by decide) (by decide) (by decide) (by decide)
    (by decide) (by decide)

/-- C3 counterexample: a row whose email send fails in the first cycle ends
that cycle with status cells Generated and Failed (Email), yet the second
poll cycle of the same run leaves the whole state untouched, because the
row's marker is still in PROCESSED_ENTRIES: it is not reconsidered, let
alone fully reprocessed, even though its ticket status is not Sent. -/
theorem C3_counterexample :
    getCell (pollCycle ⟨fun _ _ _ => true, true, fun _ => true, fun _ => true,
        fun _ => false, "id-1"⟩ headers0 true
        ⟨[], [["n", "e@x", "", "", ""]], [], [], [], []⟩).rows 0 2 = "Generated"
    ∧ getCell (pollCycle ⟨fun _ _ _ => true, true, fun _ => true, fun _ => true,
        fun _ => false, "id-1"⟩ headers0 true
        ⟨[], [["n", "e@x", "", "", ""]], [], [], [], []⟩).rows 0 3 = "Failed (Email)"
    ∧ pollCycle ⟨fun _ _ _ => true, true, fun _ => true, fun _ => true,
        fun _ => true, "id-2"⟩ headers0 true
        (pollCycle ⟨fun _ _ _ => true, true, fun _ => true, fun _ => true,
          fun _ => false, "id-1"⟩ headers0 true
          ⟨[], [["n", "e@x", "", "", ""]], [], [], [], []⟩)
      = pollCycle ⟨fun _ _ _ => true, true, fun _ => true, fun _ => true,
          fun _ => false, "id-1"⟩ headers0 true
          ⟨[], [["n", "e@x", "", "", ""]], [], [], [], []⟩ :=
  ⟨by decide, by decide, by decide⟩

/-- C3 amended: a generated-but-unemailed row is not reconsidered within the
same process run, since its marker stays in the processed set for the life
of the process; only after a restart, which rebuilds the set empty, is the
row reprocessed, rendering and emailing again. -/
theorem C3_retry_amended :
    (∀ (env : Env) (headers : List String) (cols : Cols) (i : Nat)
        (row : List String) (st : PipelineState),
        rowKey (strip (getValueSafe row cols.nameIdx))
            (strip (getValueSafe row cols.emailIdx)) ∈ st.processed →
        processRow env headers cols i row st = st)
    ∧ (∀ (env : Env) (headers : List String) (cols : Cols) (i : Nat)
        (row : List String) (st : PipelineState) (d : Doc),
        strip (getValueSafe row cols.nameIdx) ≠ "" →
        strip (getValueSafe row cols.emailIdx) ≠ "" →
        strip (getValueSafe row cols.tsIdx) ≠ "Sent" →
        rowKey (strip (getValueSafe row cols.nameIdx))
            (strip (getValueSafe row cols.emailIdx)) ∉ st.processed →
        findAttendee st.store (strip (getValueSafe row cols.emailIdx))
            (strip (getValueSafe row cols.nameIdx)) = some d →
        env.qrOk ((d.lookup "attendee_id").getD "") = true →
        env.imageOk (strip (getValueSafe row cols.nameIdx)) = true →
        env.emailOk (strip (getValueSafe row cols.emailIdx)) = true →
        (processRow env headers cols i row st).emailsSent
          = st.emailsSent ++ [strip (getValueSafe row cols.emailIdx)]) := by
  constructor
  · intro env headers cols i row st hmem
    unfold processRow
    by_cases hg1 : strip (getValueSafe row cols.nameIdx) = "" ∨
        strip (getValueSafe row cols.emailIdx) = ""
    · simp [hg1]
    · simp [hg1, hmem]
  · intro env headers cols i row st d hn he hts hpk hfind hq hi hm
    have hshape : processRow env headers cols i row st =
        renderAndSend env cols i (strip (getValueSafe row cols.nameIdx))
          (strip (getValueSafe row cols.emailIdx)) ((d.lookup "attendee_id").getD "")
          (if strip (getValueSafe row cols.idIdx) = (d.lookup "attendee_id").getD ""
           then (doWriteCell env
              { st with processed :=
                  (rowKey (strip (getValueSafe row cols.nameIdx))
                    (strip (getValueSafe row cols.emailIdx)) :: st.processed) }
              i cols.tsIdx "Generating...").2
           else (doWriteCell env
              (doWriteCell env
                { st with processed :=
                    (rowKey (strip (getValueSafe row cols.nameIdx))
                      (strip (getValueSafe row cols.emailIdx)) :: st.processed) }
                i cols.tsIdx "Generating...").2
              i cols.idIdx ((d.lookup "attendee_id").getD "")).2) := by
      unfold processRow
      simp [hn, he, hts, hpk, hfind]
    rw [hshape]
    rw [emailsSent_renderAndSend_ok _ _ _ _ _ _ _ hq hi hm]
    by_cases hsid : strip (getValueSafe row cols.idIdx) = (d.lookup "attendee_id").getD ""
      <;> simp [hsid]

/-- C3 witness: a marked row is skipped as is, and after a restart the same
row is rendered and emailed again. -/
theorem C3_witness :
    (processRow ⟨fun _ _ _ => true, true, fun _ => true, fun _ => true, fun _ => true, "u"⟩
        headers0 (resolveCols headers0) 0 ["n", "e@x", "Generated", "Failed (Email)", "id-1"]
        ⟨[[("Name", "n"), ("Email", "e@x"), ("attendee_id", "id-1")]],
          [["n", "e@x", "Generated", "Failed (Email)", "id-1"]],
          [rowKey "n" "e@x"], [], [], []⟩
      = ⟨[[("Name", "n"), ("Email", "e@x"), ("attendee_id", "id-1")]],
          [["n", "e@x", "Generated", "Failed (Email)", "id-1"]],
          [rowKey "n" "e@x"], [], [], []⟩)
    ∧ ((processRow ⟨fun _ _ _ => true, true, fun _ => true, fun _ => true, fun _ => true, "u"⟩
        headers0 (resolveCols headers0) 0 ["n", "e@x", "Generated", "Failed (Email)", "id-1"]
        ⟨[[("Name", "n"), ("Email", "e@x"), ("attendee_id", "id-1")]],
          [["n", "e@x", "Generated", "Failed (Email)", "id-1"]],
          [], [], [], []⟩).emailsSent
      = [] ++ [strip (getValueSafe ["n", "e@x", "Generated", "Failed (Email)", "id-1"]
          (resolveCols headers0).emailIdx)]) :=
  ⟨C3_retry_amended.1 _ _ _ _ _ _ (by decide),
   C3_retry_amended.2 _ _ _ _ _ _
     [("Name", "n"), ("Email", "e@x"), ("attendee_id", "id-1")]
     (by decide) (by decide) (by decide) (by decide) (by decide) (by decide)
     (by decide) (by decide)⟩

lemma isPairDoc_buildDoc_headers0 (row : List String) (aid e n : String) :
    isPairDoc (buildDoc headers0 row aid) e n =
      (getValueSafe row (resolveCols headers0).emailIdx == e &&
        getValueSafe row (resolveCols headers0).nameIdx == n) := rfl

lemma countPair_processRow_headers0 (env : Env) (i : Nat) (row : List String)
    (st : PipelineState) (e n : String) (he : strip e = e) (hn : strip n = n)
    (h1 : countPair st.store e n = 1) :
    countPair (processRow env headers0 (resolveCols headers0) i row st).store e n = 1 := by
  unfold processRow
  by_cases hg1 : strip (getValueSafe row (resolveCols headers0).nameIdx) = "" ∨
      strip (getValueSafe row (resolveCols headers0).emailIdx) = ""
  · simp [hg1, h1]
  · by_cases hg2 : strip (getValueSafe row (resolveCols headers0).tsIdx) = "Sent" ∨
        rowKey (strip (getValueSafe row (resolveCols headers0).nameIdx))
          (strip (getValueSafe row (resolveCols headers0).emailIdx)) ∈ st.processed
    · simp [hg1, hg2, h1]
    · cases hf : findAttendee st.store (strip (getValueSafe row (resolveCols headers0).emailIdx))
          (strip (getValueSafe row (resolveCols headers0).nameIdx)) with
      | some d =>
          by_cases hsid : strip (getValueSafe row (resolveCols headers0).idIdx)
              = (d.lookup "attendee_id").getD "" <;>
            simp [hg1, hg2, hf, hsid, countPair_renderAndSend, h1]
      | none =>
          by_cases hw : env.writeCell i (resolveCols headers0).idIdx env.freshId = true
          · by_cases hins : env.insertOk = true
            · have hpd : isPairDoc (buildDoc headers0 row env.freshId) e n = false := by
                rw [isPairDoc_buildDoc_headers0]
                by_contra hcon
                rw [Bool.not_eq_false, Bool.and_eq_true, beq_iff_eq, beq_iff_eq] at hcon
                obtain ⟨h1e, h0n⟩ := hcon
                rw [h1e, h0n, he, hn] at hf
                have h0 := (findAttendee_eq_none_iff st.store e n).mp hf
                omega
              simp [hg1, hg2, hf, hw, hins, countPair_renderAndSend,
                countPair_append_single, hpd, h1, doWriteCell]
            · simp [hg1, hg2, hf, hw, hins, h1, doWriteCell]
          · simp [hg1, hg2, hf, hw, h1, doWriteCell]

lemma countPair_foldl_processRow (env : Env) (e n : String) (he : strip e = e)
    (hn : strip n = n) :
    ∀ (l : List (Nat × List String)) (acc : PipelineState),
      countPair acc.store e n = 1 →
      countPair ((l.foldl
        (fun s p => processRow env headers0 (resolveCols headers0) p.1 p.2 s) acc)).store
        e n = 1 := by
  intro l
  induction l with
  | nil => intro acc h; simpa using h
  | cons p ps ih =>
      intro acc h
      simp only [List.foldl_cons]
      exact ih _ (countPair_processRow_headers0 env p.1 p.2 acc e n he hn h)

lemma countPair_pollCycle_headers0 (env : Env) (st : PipelineState) (e n : String)
    (he : strip e = e) (hn : strip n = n) (h1 : countPair st.store e n = 1) :
    countPair (pollCycle env headers0 true st).store e n = 1 := by
  have hred : pollCycle env headers0 true st =
      (st.rows.enum).foldl
        (fun s p => processRow env headers0 (resolveCols headers0) p.1 p.2 s) st := rfl
  rw [hred]
  exact countPair_foldl_processRow env e n he hn _ st h1

/-- C1 counterexample: a single row whose email cell carries a trailing
space, processed in a run whose email send fails, then again after a
restart, leaves two attendee records with identical Email and Name fields in
the store: the snapshot keeps the raw cell value while the lookup uses the
stripped one, so the second run's lookup misses the first run's record. -/
theorem C1_counterexample :
    countPair (runSteps
        [RunStep.cycle ⟨fun _ _ _ => true, true, fun _ => true, fun _ => true,
            fun _ => false, "id-1"⟩,
          RunStep.restart,
          RunStep.cycle ⟨fun _ _ _ => true, true, fun _ => true, fun _ => true,
            fun _ => false, "id-2"⟩]
        ⟨[], [["n", "a@b ", "", "", ""]], [], [], [], []⟩).store "a@b " "n" = 2 := by
  decide

/-- C1 amended: once cell values are already stripped, identity is
idempotent: any sequence of poll cycles and restarts preserves the state of
having exactly one record for the pair, and the first processing of a fresh
row whose identity is absent, with the id writeback and the store insert
succeeding, creates exactly one record for it. -/
theorem C1_identity_idempotence :
    (∀ (steps : List RunStep) (st : PipelineState) (e n : String),
        strip e = e → strip n = n → countPair st.store e n = 1 →
        countPair (runSteps steps st).store e n = 1)
    ∧ (∀ (env : Env) (i : Nat) (row : List String) (st : PipelineState) (e n : String),
        getValueSafe row (resolveCols headers0).emailIdx = e →
        getValueSafe row (resolveCols headers0).nameIdx = n →
        strip e = e → strip n = n → n ≠ "" → e ≠ "" →
        strip (getValueSafe row (resolveCols headers0).tsIdx) ≠ "Sent" →
        rowKey n e ∉ st.processed →
        countPair st.store e n = 0 →
        env.writeCell i (resolveCols headers0).idIdx env.freshId = true →
        env.insertOk = true →
        countPair (processRow env headers0 (resolveCols headers0) i row st).store e n = 1) := by
  constructor
  · intro steps
    induction steps with
    | nil => intro st e n _ _ h1; simpa [runSteps] using h1
    | cons s ss ih =>
        intro st e n he hn h1
        have hstep : runSteps (s :: ss) st =
            runSteps ss (match s with
              | RunStep.restart => { st with processed := [] }
              | RunStep.cycle env => pollCycle env headers0 true st) := rfl
        rw [hstep]
        cases s with
        | restart => exact ih _ e n he hn (by simpa using h1)
        | cycle env => exact ih _ e n he hn (countPair_pollCycle_headers0 env st e n he hn h1)
  · intro env i row st e n hrowe hrown he hn hne hee hts hpk h0 hw hins
    have hfind : findAttendee st.store e n = none :=
      (findAttendee_eq_none_iff st.store e n).mpr h0
    have hpd : isPairDoc (buildDoc headers0 row env.freshId) e n = true := by
      rw [isPairDoc_buildDoc_headers0, hrowe, hrown]
      simp
    unfold processRow
    simp only [hrowe, hrown, he, hn]
    simp [hne, hee, hts, hpk, hrowe, hrown, he, hn, hfind, hw, hins,
      countPair_renderAndSend, countPair_append_single, hpd, h0, doWriteCell]

/-- C1 witness: the preservation part at a one-record store over a cycle and
a restart, and the creation part at a fresh row whose processing succeeds. -/
theorem C1_witness :
    countPair (runSteps
        [RunStep.cycle ⟨fun _ _ _ => true, true, fun _ => true, fun _ => true,
            fun _ => false, "id-3"⟩, RunStep.restart]
        ⟨[[("Name", "n"), ("Email", "a@b"), ("attendee_id", "X")]],
          [["n", "a@b", "", "", ""]], [], [], [], []⟩).store "a@b" "n" = 1
    ∧ countPair (processRow
        ⟨fun _ _ _ => true, true, fun _ => true, fun _ => true, fun _ => true, "id-4"⟩
        headers0 (resolveCols headers0) 0 ["n", "a@b", "", "", ""]
        ⟨[], [["n", "a@b", "", "", ""]], [], [], [], []⟩).store "a@b" "n" = 1 :=
  ⟨C1_identity_idempotence.1 _ _ _ _ (by decide) (by decide) (by decide),
   C1_identity_idempotence.2 _ 0 _ _ _ _ (by decide) (by decide) (by decide) (by decide)
     (by decide) (by decide) (by decide) (by decide) (by decide) (by decide) (by decide)⟩

end Ticketing
